import Mathlib

/-!
Verification development for `kwk/yelp_business_search.py`: a sequential
script that builds Yelp search URLs, probes result counts, expands oversized
city queries into per-ZIP queries, paginates through search results, and
appends the flattened rows to a tabular store.

HTTP responses, the postal-code registry and the store are external
collaborators; they enter the model as explicit parameters (a response is
given in already-JSON-decoded form).  pandas DataFrames are modelled as a
column list plus rows of association lists; Python `KeyError` / `TypeError` /
`IndexError` paths are modelled with `Except`.
-/

/-- A decoded JSON value (the result of Python `json.loads`). -/
inductive Json : Type where
  | null : Json
  | bool : Bool → Json
  | num : Int → Json
  | str : String → Json
  | arr : List Json → Json
  | obj : List (String × Json) → Json
deriving Inhabited

/-- Hex digit used by the JSON and percent encoders (uppercase, as Python's
`urllib.parse.quote_plus` emits; `json.dumps` uses lowercase for a few
escapes but those are below 0x20 — we keep one uppercase table, the claims
never distinguish case of hex digits). -/
def hexDigit (n : Nat) : Char :=
  if n < 10 then Char.ofNat (48 + n) else Char.ofNat (55 + n)

/-- Four-hex-digit rendering of a code unit, for JSON `\uXXXX` escapes. -/
def hex4 (n : Nat) : String :=
  String.mk [hexDigit (n / 4096 % 16), hexDigit (n / 256 % 16),
             hexDigit (n / 16 % 16), hexDigit (n % 16)]

/-- JSON string escaping as performed by `json.dumps` with its default
`ensure_ascii=True`: quote, backslash and common controls get two-character
escapes, other controls and all non-ASCII characters become `\uXXXX`
(surrogate pairs above the BMP). -/
def jsonEscapeChar (c : Char) : String :=
  if c = '"' then "\\\""
  else if c = '\\' then "\\\\"
  else if c = '\n' then "\\n"
  else if c = '\t' then "\\t"
  else if c = '\r' then "\\r"
  else if c.toNat < 0x20 then "\\u" ++ hex4 c.toNat
  else if c.toNat < 0x7F then String.mk [c]
  else if c.toNat ≤ 0xFFFF then "\\u" ++ hex4 c.toNat
  else
    let v := c.toNat - 0x10000
    "\\u" ++ hex4 (0xD800 + v / 1024) ++ "\\u" ++ hex4 (0xDC00 + v % 1024)

def jsonEscape (s : String) : String :=
  String.join (s.toList.map jsonEscapeChar)

mutual
/-- Python `json.dumps` with default separators (`", "` between array or
object items and `": "` between a key and its value). -/
def dumps : Json → String
  | .null => "null"
  | .bool true => "true"
  | .bool false => "false"
  | .num n => toString n
  | .str s => "\"" ++ jsonEscape s ++ "\""
  | .arr xs => "[" ++ dumpsList xs ++ "]"
  | .obj fs => "\x7b" ++ dumpsFields fs ++ "\x7d"

/-- `", "`-separated serializations of array elements. -/
def dumpsList : List Json → String
  | [] => ""
  | [x] => dumps x
  | x :: tl => dumps x ++ ", " ++ dumpsList tl

/-- `", "`-separated `"key": value` serializations of object fields. -/
def dumpsFields : List (String × Json) → String
  | [] => ""
  | [(k, v)] => "\"" ++ jsonEscape k ++ "\": " ++ dumps v
  | (k, v) :: tl => "\"" ++ jsonEscape k ++ "\": " ++ dumps v ++ ", " ++ dumpsFields tl
end

/-- A row of a pandas DataFrame: an association list from column name to
cell value.  A missing binding models a NaN cell (a record that lacked the
column when the frame was assembled). -/
abbrev Row := List (String × Json)

/-- Shallow model of a pandas DataFrame: column order plus rows.
`pandas.DataFrame()` is `⟨[], []⟩`. -/
structure DataFrame : Type where
  cols : List String
  rows : List Row
deriving Inhabited

/-- Cell lookup (first binding wins, keys are unique in practice);
`none` models NaN. -/
def getCell : Row → String → Option Json
  | [], _ => none
  | p :: ps, c => if p.1 = c then some p.2 else getCell ps c

/-- Set one cell of a row: replace the binding if present, else append it
at the end (a new column appears after the existing ones). -/
def setCell : Row → String → Json → Row
  | [], c, v => [(c, v)]
  | p :: ps, c, v => if p.1 = c then (c, v) :: ps else p :: setCell ps c v

/-- Append a key to a column list unless already present (pandas keeps the
first occurrence's position). -/
def insertCol (cs : List String) (c : String) : List String :=
  if c ∈ cs then cs else cs ++ [c]

/-- `df[c] = v` with a scalar `v`: broadcast `v` down a (possibly new)
column. -/
def setColumn (df : DataFrame) (c : String) (v : Json) : DataFrame :=
  ⟨insertCol df.cols c, df.rows.map (fun row => setCell row c v)⟩

/-- `setCell`, arguments flipped for mapping over rows. -/
def setCellWith (c : String) (v : Json) (row : Row) : Row := setCell row c v

/-- `pandas.DataFrame.from_records(records)`: columns are the union of the
records' keys in order of first appearance. -/
def fromRecords (records : List Row) : DataFrame :=
  ⟨records.foldl (fun acc row => row.foldl (fun a p => insertCol a p.1) acc) [],
   records⟩

/-- `pandas.concat(dfs, ignore_index=True)`: union of columns, rows stacked. -/
def concatDfs (dfs : List DataFrame) : DataFrame :=
  ⟨dfs.foldl (fun acc d => d.cols.foldl insertCol acc) [],
   (dfs.map DataFrame.rows).flatten⟩

/-- pandas `DataFrame.empty`: no rows or no columns. -/
def dfIsEmpty (df : DataFrame) : Bool :=
  df.rows.isEmpty || df.cols.isEmpty

/-- UTF-8 encoding of one character, as byte values. -/
def utf8Bytes (c : Char) : List Nat :=
  let n := c.toNat
  if n < 0x80 then [n]
  else if n < 0x800 then [0xC0 + n / 64, 0x80 + n % 64]
  else if n < 0x10000 then [0xE0 + n / 4096, 0x80 + n / 64 % 64, 0x80 + n % 64]
  else [0xF0 + n / 262144, 0x80 + n / 4096 % 64, 0x80 + n / 64 % 64, 0x80 + n % 64]

/-- Percent-encoding of one UTF-8 byte as done by `urllib.parse.quote_plus`
with its default empty `safe` set: ASCII alphanumerics and `_.-~` pass
through, a space becomes `+`, everything else becomes `%XX`. -/
def quoteByte (n : Nat) : String :=
  if (48 ≤ n ∧ n ≤ 57) ∨ (65 ≤ n ∧ n ≤ 90) ∨ (97 ≤ n ∧ n ≤ 122)
      ∨ n = 45 ∨ n = 46 ∨ n = 95 ∨ n = 126 then
    String.mk [Char.ofNat n]
  else if n = 32 then "+"
  else "%" ++ String.mk [hexDigit (n / 16), hexDigit (n % 16)]

/-- `urllib.parse.quote_plus`. -/
def quote_plus (s : String) : String :=
  String.join (((s.toList.map utf8Bytes).flatten).map quoteByte)

def YELP_URL : String := "https://api.yelp.com/v3/businesses/search?"

def JSON_COLUMNS : List String := ["categories", "coordinates", "transactions", "location"]

/-- `yelp_search_url`: build a Yelp search URL from `location` and optional
`term`; the `term` query parameter is included only when `term` is truthy
(neither `None` nor the empty string). -/
def yelp_search_url (location : String) (term : Option String) : String :=
  let term_param := match term with
    | some t => if t ≠ "" then "&term=" ++ quote_plus t else ""
    | none => ""
  YELP_URL ++ term_param ++ "&location=" ++ quote_plus location ++ "&sort=distance"

/-- An HTTP response whose text has been decoded with `json.loads` (the raw
text and the parse step stay outside the model; `body` is the decoded
value). -/
structure HttpResponse : Type where
  status : Nat
  body : Json

/-- Python `d[k]`: `KeyError` on a missing key, `TypeError` when the decoded
body is not a dict. -/
def dictGet (j : Json) (k : String) : Except String Json :=
  match j with
  | .obj fields =>
      match fields.lookup k with
      | some v => .ok v
      | none => .error "KeyError"
  | _ => .error "TypeError"

/-- `yelp_expected_result_count`: on HTTP 200 return the `total` field of the
decoded body, on any other status return `0`. -/
def yelp_expected_result_count (resp : HttpResponse) : Except String Json :=
  if resp.status = 200 then dictGet resp.body "total"
  else .ok (.num 0)

/-- Python `x > 1000` on a decoded JSON value: well-defined only for a
number, `TypeError` otherwise. -/
def asIntForCompare (j : Json) : Except String Int :=
  match j with
  | .num n => .ok n
  | _ => .error "TypeError"

/-- Worker for `pySplit`: `acc` holds the reversed current chunk.  The fuel
argument only makes the recursion structural; it starts at the input length
and each step consumes at least one character, so the fuel-exhausted case is
never reached. -/
def pySplitList (sep : List Char) : Nat → List Char → List Char → List (List Char)
  | _, acc, [] => [acc.reverse]
  | 0, acc, l => [acc.reverse ++ l]
  | fuel + 1, acc, c :: cs =>
    if sep.isPrefixOf (c :: cs) then
      acc.reverse :: pySplitList sep fuel [] (List.drop (sep.length - 1) cs)
    else
      pySplitList sep fuel (c :: acc) cs

/-- Python `s.split(sep)` for a non-empty separator: split on left-to-right
non-overlapping occurrences of `sep`; always returns at least one piece. -/
def pySplit (s sep : String) : List String :=
  (pySplitList sep.toList s.toList.length [] s.toList).map (fun cs => String.mk cs)

/-- `yelp_city_locations`: probe the expected result count for `city`; above
1000 fan the city out into one location per registered postal code, else keep
the single city string.  The probe's HTTP response enters as a parameter, and
`zipDb city state` stands for the external `zipcodes.filter_by` collaborator
(the `zip_code` field of each record registered for that city/state). -/
def yelp_city_locations (city : String) (_term : Option String)
    (probe : HttpResponse) (zipDb : String → String → List String) :
    Except String (List String × Int) :=
  match yelp_expected_result_count probe with
  | .error e => .error e
  | .ok t =>
    match asIntForCompare t with
    | .error e => .error e
    | .ok expected_results =>
      if expected_results > 1000 then
        match pySplit city ", " with
        | c :: st :: _ =>
            .ok ((zipDb c st).map (fun zip_code => city ++ " " ++ zip_code),
                 expected_results)
        | _ => .error "IndexError"
      else .ok ([city], expected_results)

/-- One decoded response to a paginated search request: the HTTP status and,
for 200 responses, the `total` and `businesses` fields of the decoded body
(a 200 body is assumed well-formed; non-200 bodies are never read by the
pagination loop). -/
structure Response : Type where
  status : Nat
  total : Int
  businesses : List Row
deriving Inhabited

/-- One issued page request: the `limit` and `offset` query parameters. -/
structure Request : Type where
  limit : Int
  offset : Int
deriving DecidableEq, Inhabited

def MAX_LIMIT : Int := 50
def MAX_RESULTS : Int := 1000

/-- Mutable state of `yelp_location_search`'s while loop. -/
structure LoopState : Type where
  pageDfs : List DataFrame
  runningCount : Int
  limit : Int
  totalCount : Int
deriving Inhabited

/-- The while-loop condition of `yelp_location_search`. -/
def loopGuard (s : LoopState) : Prop :=
  s.runningCount + s.limit ≤ MAX_RESULTS ∧
    s.runningCount + s.limit ≤ s.totalCount ∧ s.limit > 0

instance (s : LoopState) : Decidable (loopGuard s) := by
  unfold loopGuard; infer_instance

/-- One iteration body of the pagination loop, given the response to the
request it issued. -/
def searchStep (searchUrl : String) (s : LoopState) (r : Response) : LoopState :=
  let page_url := searchUrl ++ "&limit=" ++ toString s.limit
                    ++ "&offset=" ++ toString s.runningCount
  if r.status = 200 then
    if r.businesses.length = 0 then
      { s with totalCount := r.total, limit := 0 }
    else
      let running' := s.runningCount + (r.businesses.length : Int)
      let results_df := setColumn (fromRecords r.businesses) "_page_url" (.str page_url)
      { pageDfs := s.pageDfs ++ [results_df],
        runningCount := running',
        totalCount := r.total,
        limit :=
          if running' + MAX_LIMIT ≤ min r.total MAX_RESULTS then MAX_LIMIT
          else min r.total MAX_RESULTS - running' }
  else
    { s with limit := 0 }

/-- The pagination loop.  The environment supplies the successive HTTP
responses as a list; each iteration whose guard holds consumes one response
and records the `(request, response)` pair.  If the list runs out while the
guard still holds, the run is cut short (no further request is modelled). -/
def searchLoop (searchUrl : String) (s : LoopState) :
    List Response → LoopState × List (Request × Response)
  | [] => (s, [])
  | r :: rest =>
    if loopGuard s then
      let req : Request := ⟨s.limit, s.runningCount⟩
      let out := searchLoop searchUrl (searchStep searchUrl s r) rest
      (out.1, (req, r) :: out.2)
    else (s, [])

/-- Loop state on entry to `yelp_location_search`'s while loop. -/
def initState : LoopState :=
  { pageDfs := [], runningCount := 0, limit := MAX_LIMIT, totalCount := 0 + MAX_LIMIT }

/-- Python `str` of a bool. -/
def pyStr (b : Bool) : String := if b then "True" else "False"

/-- Python `term if term else ''`. -/
def pyTermOrEmpty (term : Option String) : String :=
  match term with
  | some t => if t ≠ "" then t else ""
  | none => ""

/-- `json.dumps` of one cell; a NaN cell (missing binding) prints as `NaN`. -/
def dumpsCell (v : Option Json) : String :=
  match v with
  | some j => dumps j
  | none => "NaN"

/-- Effect on one row of
`search_results[JSON_COLUMNS] = search_results[JSON_COLUMNS].map(json.dumps).astype('string')`:
each of the four cells is read from the original row and overwritten by its
serialized form. -/
def serializeRow (row : Row) : Row :=
  JSON_COLUMNS.foldl (fun r c => setCell r c (.str (dumpsCell (getCell row c)))) row

/-- The JSON-column coercion line.  Selecting `df[JSON_COLUMNS]` raises
`KeyError` when any of the four columns is absent — in particular on the
empty `pandas.DataFrame()`. -/
def serializeJsonColumns (df : DataFrame) : Except String DataFrame :=
  if JSON_COLUMNS.all (fun c => c ∈ df.cols) then
    .ok ⟨df.cols, df.rows.map serializeRow⟩
  else
    .error "KeyError"

/-- `if page_dfs: ... else: pandas.DataFrame()` — the raw concatenated
table of one run of the pagination loop, before any post-processing. -/
def assembledResults (url : String) (responses : List Response) : DataFrame :=
  if ¬ (searchLoop url initState responses).1.pageDfs.isEmpty then
    concatDfs (searchLoop url initState responses).1.pageDfs
  else DataFrame.mk [] []

/-- `is_complete` after one run of the pagination loop:
false iff `running_count < total_count`. -/
def isCompleteFlag (url : String) (responses : List Response) : Bool :=
  if (searchLoop url initState responses).1.runningCount <
      (searchLoop url initState responses).1.totalCount then false else true

/-- `yelp_location_search`: paginate up to the 1000-result limit, then
assemble the accumulated pages into one table, serialize the four JSON
columns and append the metadata columns.  `loadedAt` stands for
`pandas.Timestamp.utcnow()`; `responses` are the successive decoded HTTP
responses. -/
def yelp_location_search (location : String) (term : Option String)
    (loadedAt : String) (responses : List Response) : Except String DataFrame :=
  let search_url := yelp_search_url location term
  match serializeJsonColumns (assembledResults search_url responses) with
  | .error e => .error e
  | .ok df =>
      .ok (setColumn (setColumn (setColumn (setColumn df
            "_loaded_at" (.str loadedAt))
            "_location" (.str location))
            "_term" (.str (pyTermOrEmpty term)))
            "_is_complete" (.str (pyStr (isCompleteFlag search_url responses))))

/-- One `(location, term)` step of the `__main__` driver loop: look up
existing rows for the pair; a lookup exception is treated as an empty lookup
result; fetch-and-append happens exactly when the (possibly defaulted)
lookup result is empty.  Returns `some` of the fetch outcome when the pair
is fetched and appended, `none` when it is skipped. -/
def driverStep (location : String) (term : Option String) (loadedAt : String)
    (responses : List Response) (lookupResult : Except String DataFrame) :
    Option (Except String DataFrame) :=
  let loaded_data := match lookupResult with
    | .ok d => d
    | .error _ => DataFrame.mk [] []
  if dfIsEmpty loaded_data then
    some (yelp_location_search location term loadedAt responses)
  else none

/-- The `(request, response)` pairs consumed by one run of the pagination
loop from its initial state. -/
def searchTrace (url : String) (rs : List Response) : List (Request × Response) :=
  (searchLoop url initState rs).2

/-- The loop state after one run of the pagination loop from its initial
state. -/
def searchFinal (url : String) (rs : List Response) : LoopState :=
  (searchLoop url initState rs).1

/-- A consumed page that behaves as the API promises for a fixed reported
total `T`: HTTP 200, reported total `T`, a non-empty `businesses` array of
at most `limit` records that never runs past `T` cumulative results. -/
def wellBehaved (T : Int) (p : Request × Response) : Prop :=
  p.2.status = 200 ∧ p.2.total = T ∧ 0 < p.2.businesses.length ∧
    (p.2.businesses.length : Int) ≤ p.1.limit ∧
    p.1.offset + (p.2.businesses.length : Int) ≤ T

instance (T : Int) (p : Request × Response) : Decidable (wellBehaved T p) := by
  unfold wellBehaved; infer_instance

/-- A business record as returned inside a page: the four nested-JSON
fields plus a scalar one. -/
def sampleBiz : Row :=
  [("id", .str "a"), ("categories", .arr []), ("coordinates", .obj []),
   ("transactions", .arr []), ("location", .obj [])]

/-- Responses realizing a reported total of 1500 (> 1000): twenty full pages
of 50 records, all HTTP 200 and non-empty. -/
def overCapResponses : List Response :=
  List.replicate 20 ⟨200, 1500, List.replicate 50 sampleBiz⟩

/-- Responses for the zero-business-page scenario: page 1 returns 50 of a
reported total of 80, page 2 returns 0 businesses. -/
def zeroPageResponses : List Response :=
  [⟨200, 80, List.replicate 50 sampleBiz⟩, ⟨200, 80, []⟩]

/-- A single successful one-record page (total 1). -/
def oneRowResponses : List Response := [⟨200, 1, [sampleBiz]⟩]

/-- Two well-behaved pages realizing a constant reported total of 80:
50 records, then 30 records. -/
def twoPageResponses : List Response :=
  [⟨200, 80, List.replicate 50 sampleBiz⟩, ⟨200, 80, List.replicate 30 sampleBiz⟩]

/-- The single processed row produced by
`yelp_location_search "X" none "t0" oneRowResponses`. -/
def c9WitnessRow : Row :=
  [("id", .str "a"), ("categories", .str "[]"), ("coordinates", .str "\x7b\x7d"),
   ("transactions", .str "[]"), ("location", .str "\x7b\x7d"),
   ("_page_url", .str "https://api.yelp.com/v3/businesses/search?&location=X&sort=distance&limit=50&offset=0"),
   ("_loaded_at", .str "t0"), ("_location", .str "X"), ("_term", .str ""),
   ("_is_complete", .str "True")]

/-- String observer for a cell expected to hold a JSON string. -/
def cellStr (row : Row) (c : String) : Option String :=
  match getCell row c with
  | some (.str s) => some s
  | _ => none



theorem getCell_setCell_self (row : Row) (c : String) (v : Json) :
    getCell (setCell row c v) c = some v := by
  induction row with
  | nil => simp [setCell, getCell]
  | cons p ps ih =>
    by_cases hp : p.1 = c
    · simp [setCell, hp, getCell]
    · simpa [setCell, hp, getCell] using ih


theorem getCell_setCell_ne (row : Row) (c c' : String) (v : Json) (hne : c' ≠ c) :
    getCell (setCell row c v) c' = getCell row c' := by
  induction row with
  | nil =>
    simp only [setCell, getCell]
    rw [if_neg (fun h => hne (Eq.symm h))]
  | cons p ps ih =>
    by_cases hp : p.1 = c
    · have hs : setCell (p :: ps) c v = (c, v) :: ps := by simp [setCell, hp]
      rw [hs]
      simp only [getCell]
      rw [if_neg (fun h => hne (Eq.symm h)), if_neg (fun h => hne (hp ▸ Eq.symm h))]
    · have hs : setCell (p :: ps) c v = p :: setCell ps c v := by simp [setCell, hp]
      rw [hs]
      by_cases hp' : p.1 = c'
      · simp only [getCell, if_pos hp']
      · simp only [getCell, if_neg hp']
        exact ih

/-- C10: the URL builder treats an empty-string term and an absent term
identically — the `term` query parameter is omitted for any falsy term, so
`yelp_search_url location "" = yelp_search_url location None`; and the
stored `_term` metadata value is the empty string in both cases. -/
theorem c10_empty_term_indistinguishable :
    ∀ location : String,
      yelp_search_url location (some "") = yelp_search_url location none ∧
      pyTermOrEmpty (some "") = pyTermOrEmpty none := by
  intro location
  exact ⟨rfl, rfl⟩

/-- C8: the count prober returns the `total` field of the decoded JSON body
on HTTP 200, and returns 0 for every non-200 status, never propagating the
HTTP error. -/
theorem c8_prober_total_or_zero :
    ∀ (resp : HttpResponse) (fields : List (String × Json)) (n : Int),
      (resp.status = 200 → resp.body = .obj fields →
        fields.lookup "total" = some (.num n) →
        yelp_expected_result_count resp = .ok (.num n)) ∧
      (resp.status ≠ 200 → yelp_expected_result_count resp = .ok (.num 0)) := by
  intro resp fields n
  constructor
  · intro h200 hbody hlook
    simp [yelp_expected_result_count, h200, dictGet, hbody, hlook]
  · intro hne
    simp [yelp_expected_result_count, hne]

theorem c8_prober_total_or_zero_witness :
    yelp_expected_result_count ⟨200, .obj [("total", .num 42)]⟩ = .ok (.num 42) ∧
    yelp_expected_result_count ⟨500, .null⟩ = .ok (.num 0) :=
  ⟨(c8_prober_total_or_zero ⟨200, .obj [("total", .num 42)]⟩ [("total", .num 42)] 42).1
      rfl rfl rfl,
   (c8_prober_total_or_zero ⟨500, .null⟩ [] 0).2 (by decide)⟩

/-- C7: whenever the probe reports a total of at most 1000 (including the
total 0 produced by a failed probe such as an HTTP 500 response), the
location expander returns exactly the single-element list holding the input
city unchanged, paired with that total. -/
theorem c7_expander_small_total :
    ∀ (city : String) (term : Option String) (probe : HttpResponse)
      (zipDb : String → String → List String) (T : Int),
      yelp_expected_result_count probe = .ok (.num T) → T ≤ 1000 →
      yelp_city_locations city term probe zipDb = .ok ([city], T) := by
  intro city term probe zipDb T hprobe hle
  simp only [yelp_city_locations, hprobe, asIntForCompare]
  rw [if_neg (by omega)]

theorem c7_expander_small_total_witness :
    yelp_city_locations "Anytown, CA" none ⟨500, .null⟩ (fun _ _ => []) =
      .ok (["Anytown, CA"], 0) :=
  c7_expander_small_total "Anytown, CA" none ⟨500, .null⟩ (fun _ _ => []) 0 rfl
    (by decide)

/-- C6: whenever the probe reports a total above 1000 and the city string
contains a `", "`-separated state code, the location expander returns one
location per postal code registered for that city/state, each equal to the
original city string followed by a space and the ZIP code, paired with the
probed total. -/
theorem c6_expander_zip_fanout :
    ∀ (city : String) (term : Option String) (probe : HttpResponse)
      (zipDb : String → String → List String) (T : Int)
      (cityName stateCode : String) (restParts : List String),
      yelp_expected_result_count probe = .ok (.num T) → T > 1000 →
      pySplit city ", " = cityName :: stateCode :: restParts →
      yelp_city_locations city term probe zipDb =
        .ok ((zipDb cityName stateCode).map (fun zip_code => city ++ " " ++ zip_code),
             T) := by
  intro city term probe zipDb T cityName stateCode restParts hprobe hgt hsplit
  simp only [yelp_city_locations, hprobe, asIntForCompare]
  rw [if_pos hgt, hsplit]

theorem c6_expander_zip_fanout_witness :
    yelp_city_locations "Springfield, IL" none ⟨200, .obj [("total", .num 1500)]⟩
        (fun c st => if c = "Springfield" ∧ st = "IL" then ["62701", "62704"] else []) =
      .ok (["Springfield, IL 62701", "Springfield, IL 62704"], 1500) := by
  have h := c6_expander_zip_fanout "Springfield, IL" none
    ⟨200, .obj [("total", .num 1500)]⟩
    (fun c st => if c = "Springfield" ∧ st = "IL" then ["62701", "62704"] else [])
    1500 "Springfield" "IL" [] rfl (by decide) (by decide)
  simpa using h

/-- C5: for one (location, term) pair the driver skips the fetch and the
append exactly when the store lookup succeeds with a non-empty result, and a
lookup that raises is handled exactly like an empty lookup result: the
driver proceeds to fetch and append. -/
theorem c5_driver_skip_or_fetch :
    ∀ (location : String) (term : Option String) (loadedAt : String)
      (responses : List Response) (d : DataFrame) (e : String),
      (dfIsEmpty d = false →
        driverStep location term loadedAt responses (.ok d) = none) ∧
      driverStep location term loadedAt responses (.error e) =
        driverStep location term loadedAt responses (.ok (DataFrame.mk [] [])) ∧
      driverStep location term loadedAt responses (.error e) =
        some (yelp_location_search location term loadedAt responses) := by
  intro location term loadedAt responses d e
  refine ⟨fun hd => ?_, rfl, rfl⟩
  simp [driverStep, hd]

theorem c5_driver_skip_or_fetch_witness :
    driverStep "X" none "t0" [] (.ok ⟨["one"], [[("one", .num 1)]]⟩) = none :=
  (c5_driver_skip_or_fetch "X" none "t0" [] ⟨["one"], [[("one", .num 1)]]⟩ "boom").1
    rfl

/-- C3 (code bug): a run in which no page is successfully fetched — here a
single HTTP 500 response — leaves the page accumulator empty, and the
JSON-column coercion then raises `KeyError` on the empty `pandas.DataFrame()`
instead of returning the empty table the code's own empty-accumulator branch
prepares. -/
theorem c3_empty_run_raises_keyerror :
    yelp_location_search "X" none "t0" [⟨500, 0, []⟩] = .error "KeyError" := rfl

theorem searchStep_limit_le (url : String) (s : LoopState) (r : Response) :
    (searchStep url s r).limit ≤ MAX_LIMIT := by
  unfold searchStep
  by_cases h1 : r.status = 200
  · rw [if_pos h1]
    by_cases h2 : r.businesses.length = 0
    · rw [if_pos h2]
      simp [MAX_LIMIT]
    · rw [if_neg h2]
      dsimp only
      by_cases h3 : s.runningCount + (r.businesses.length : Int) + MAX_LIMIT ≤
          min r.total MAX_RESULTS
      · rw [if_pos h3]
      · rw [if_neg h3]
        simp only [MAX_LIMIT, MAX_RESULTS] at h3 ⊢
        omega
  · rw [if_neg h1]
    simp [MAX_LIMIT]

theorem searchLoop_request_bounds (url : String) :
    ∀ (rs : List Response) (s : LoopState), s.limit ≤ MAX_LIMIT →
      ∀ p ∈ (searchLoop url s rs).2,
        p.1.limit ≤ 50 ∧ 0 < p.1.limit ∧ p.1.offset + p.1.limit ≤ 1000 := by
  intro rs
  induction rs with
  | nil =>
    intro s _ p hp
    simp [searchLoop] at hp
  | cons r rest ih =>
    intro s hs p hp
    by_cases hg : loopGuard s
    · simp only [searchLoop, if_pos hg, List.mem_cons] at hp
      rcases hp with hp | hp
      · obtain ⟨h1, h2, h3⟩ := hg
        subst hp
        simp only [MAX_LIMIT, MAX_RESULTS] at hs h1 h2 h3
        exact ⟨hs, h3, h1⟩
      · exact ih (searchStep url s r) (searchStep_limit_le url s r) p hp
    · simp [searchLoop, hg] at hp

/-- C1: in every run of the pagination loop (under the claim's assumption
that each HTTP 200 page carries at most `limit` businesses), every issued
page request has a positive `limit` of at most 50 and requests no result
past index 1000 (`offset + limit ≤ 1000`) — the loop guard admits a request
only under these bounds. -/
theorem c1_issued_requests_bounded :
    ∀ (location : String) (term : Option String) (rs : List Response),
      (∀ p ∈ searchTrace (yelp_search_url location term) rs,
          p.2.status = 200 → (p.2.businesses.length : Int) ≤ p.1.limit) →
      ∀ i, i < (searchTrace (yelp_search_url location term) rs).length →
        ((searchTrace (yelp_search_url location term) rs).getD i default).1.limit ≤ 50 ∧
        0 < ((searchTrace (yelp_search_url location term) rs).getD i default).1.limit ∧
        ((searchTrace (yelp_search_url location term) rs).getD i default).1.offset +
          ((searchTrace (yelp_search_url location term) rs).getD i default).1.limit ≤ 1000 := by
  intro location term rs _ i hi
  have hmem : (searchTrace (yelp_search_url location term) rs).getD i default ∈
      searchTrace (yelp_search_url location term) rs := by
    rw [List.getD_eq_getElem _ _ hi]
    exact List.getElem_mem hi
  exact searchLoop_request_bounds (yelp_search_url location term) rs initState
    (by simp [initState]) _ hmem

theorem c1_issued_requests_bounded_witness :
    0 < (searchTrace (yelp_search_url "X" none) oneRowResponses).length ∧
    (((searchTrace (yelp_search_url "X" none) oneRowResponses).getD 0 default).1.limit ≤ 50 ∧
     0 < ((searchTrace (yelp_search_url "X" none) oneRowResponses).getD 0 default).1.limit ∧
     ((searchTrace (yelp_search_url "X" none) oneRowResponses).getD 0 default).1.offset +
       ((searchTrace (yelp_search_url "X" none) oneRowResponses).getD 0 default).1.limit ≤ 1000) :=
  ⟨by decide,
   c1_issued_requests_bounded "X" none oneRowResponses (by decide) 0 (by decide)⟩

set_option maxRecDepth 100000 in
/-- C4: a 200 page with zero businesses sets `limit` to 0 and so ends the
loop at once — the zero page is the last consumed response and only
`total_count` is refreshed; concretely, for page 1 returning 50 of a
reported total of 80 and page 2 returning 0 businesses, the fetcher returns
a 50-row table whose every row has `_is_complete = "False"`. -/
theorem c4_zero_business_page :
    (∀ (url : String) (s : LoopState) (r : Response) (rest : List Response),
        loopGuard s → r.status = 200 → r.businesses = [] →
        searchLoop url s (r :: rest) =
          ({ s with totalCount := r.total, limit := 0 },
           [(⟨s.limit, s.runningCount⟩, r)])) ∧
    (yelp_location_search "X" none "t0" zeroPageResponses).map
        (fun df => (df.rows.length,
          df.rows.all (fun row => cellStr row "_is_complete" == some "False"))) =
      .ok (50, true) := by
  constructor
  · intro url s r rest hg h200 hb
    have hstep : searchStep url s r = { s with totalCount := r.total, limit := 0 } := by
      simp [searchStep, h200, hb]
    have hng : ¬ loopGuard { s with totalCount := r.total, limit := 0 } := by
      rintro ⟨-, -, h3⟩
      simp at h3
    simp only [searchLoop, if_pos hg]
    rw [hstep]
    cases rest with
    | nil => simp [searchLoop]
    | cons r2 rest2 => simp [searchLoop, hng]
  · rfl

theorem c4_zero_business_page_witness :
    searchLoop "u" initState [⟨200, 7, []⟩] =
      ({ initState with totalCount := 7, limit := 0 },
       [(⟨50, 0⟩, ⟨200, 7, []⟩)]) :=
  c4_zero_business_page.1 "u" initState ⟨200, 7, []⟩ [] (by decide) rfl rfl

set_option maxRecDepth 100000 in
/-- C2 counterexample: with a constant reported total of 1500 and twenty
HTTP 200 pages of 50 businesses each — every issued request answered with a
non-empty page of at most `limit` records — the loop stops at
`running_count = 1000` with `total_count = 1500`, so `running_count` is
strictly below `total_count` and the run is marked incomplete, refuting the
claim's "including when the reported `total` exceeds the 1000-result cap". -/
theorem c2_overcap_counterexample :
    (∀ p ∈ searchTrace (yelp_search_url "X" none) overCapResponses,
        p.2.status = 200 ∧ 0 < p.2.businesses.length ∧
          (p.2.businesses.length : Int) ≤ p.1.limit) ∧
    ¬ loopGuard (searchFinal (yelp_search_url "X" none) overCapResponses) ∧
    (searchFinal (yelp_search_url "X" none) overCapResponses).runningCount = 1000 ∧
    (searchFinal (yelp_search_url "X" none) overCapResponses).totalCount = 1500 ∧
    (searchFinal (yelp_search_url "X" none) overCapResponses).runningCount <
      (searchFinal (yelp_search_url "X" none) overCapResponses).totalCount := by
  decide

theorem stoppedState_runningCount (s : LoopState)
    (h3 : s.runningCount ≤ min s.totalCount MAX_RESULTS)
    (h4 : s.limit = min MAX_LIMIT (min s.totalCount MAX_RESULTS - s.runningCount))
    (hng : ¬ loopGuard s) : s.runningCount = min s.totalCount MAX_RESULTS := by
  unfold loopGuard at hng
  simp only [MAX_LIMIT, MAX_RESULTS] at *
  omega


theorem searchLoop_complete_aux (url : String) (T : Int) :
    ∀ (rs : List Response) (s : LoopState),
      0 ≤ s.runningCount →
      s.runningCount ≤ min s.totalCount MAX_RESULTS →
      s.limit = min MAX_LIMIT (min s.totalCount MAX_RESULTS - s.runningCount) →
      (∀ p ∈ (searchLoop url s rs).2, wellBehaved T p) →
      ¬ loopGuard (searchLoop url s rs).1 →
      (searchLoop url s rs).1.runningCount =
          min (searchLoop url s rs).1.totalCount MAX_RESULTS ∧
        ((searchLoop url s rs).1 = s ∨ (searchLoop url s rs).1.totalCount = T) := by
  intro rs
  induction rs with
  | nil =>
    intro s _ h3 h4 _ hng
    simp only [searchLoop] at hng
    exact ⟨stoppedState_runningCount s h3 h4 hng, Or.inl rfl⟩
  | cons r rest ih =>
    intro s h2 h3 h4 hwb hng
    by_cases hg : loopGuard s
    · have hcons : searchLoop url s (r :: rest) =
          ((searchLoop url (searchStep url s r) rest).1,
           (⟨s.limit, s.runningCount⟩, r) ::
             (searchLoop url (searchStep url s r) rest).2) := by
        simp [searchLoop, hg]
      rw [hcons] at hwb hng ⊢
      have hw0 := hwb _ (List.mem_cons_self _ _)
      unfold wellBehaved at hw0
      dsimp only at hw0
      obtain ⟨w200, wtot, wpos, wle, wcum⟩ := hw0
      have hlen0 : ¬ r.businesses.length = 0 := by omega
      obtain ⟨hg1, hg2, hg3⟩ := hg
      have hrun : (searchStep url s r).runningCount =
          s.runningCount + (r.businesses.length : Int) := by
        simp only [searchStep]
        rw [if_pos w200, if_neg hlen0]
      have htot : (searchStep url s r).totalCount = r.total := by
        simp only [searchStep]
        rw [if_pos w200, if_neg hlen0]
      have hlim : (searchStep url s r).limit =
          if s.runningCount + (r.businesses.length : Int) + MAX_LIMIT ≤
              min r.total MAX_RESULTS then MAX_LIMIT
          else min r.total MAX_RESULTS -
            (s.runningCount + (r.businesses.length : Int)) := by
        simp only [searchStep]
        rw [if_pos w200, if_neg hlen0]
      have h2p : 0 ≤ (searchStep url s r).runningCount := by
        rw [hrun]
        omega
      have h3p : (searchStep url s r).runningCount ≤
          min (searchStep url s r).totalCount MAX_RESULTS := by
        rw [hrun, htot, wtot]
        simp only [MAX_LIMIT, MAX_RESULTS] at h4 hg1 hg2 hg3 wle wcum ⊢
        omega
      have h4p : (searchStep url s r).limit =
          min MAX_LIMIT (min (searchStep url s r).totalCount MAX_RESULTS -
            (searchStep url s r).runningCount) := by
        rw [hlim, hrun, htot]
        split_ifs with hcase
        · simp only [MAX_LIMIT, MAX_RESULTS] at hcase ⊢
          omega
        · simp only [MAX_LIMIT, MAX_RESULTS] at hcase ⊢
          omega
      have hrest := ih (searchStep url s r) h2p h3p h4p
        (fun p hp => hwb p (List.mem_cons_of_mem _ hp)) hng
      refine ⟨hrest.1, Or.inr ?_⟩
      rcases hrest.2 with h | h
      · rw [h, htot, wtot]
      · exact h
    · have hstop : searchLoop url s (r :: rest) = (s, []) := by
        simp [searchLoop, hg]
      rw [hstop] at hng ⊢
      exact ⟨stoppedState_runningCount s h3 h4 hng, Or.inl rfl⟩

/-- C2 (amended): if every page request issued by the paginated fetcher is
answered with HTTP 200, a constant reported total `T`, and a non-empty
`businesses` array of at most `limit` records that never runs past `T`
cumulative results, and the loop stops because its guard fails (not because
the environment ran out), then — provided the reported total does not
exceed the 1000-result cap — the loop ends with
`running_count = total_count = T`, i.e. `is_complete` is true.  (When `T`
exceeds the cap the run stops at 1000 results and is marked incomplete, as
the counterexample shows.) -/
theorem c2_amended_complete_below_cap :
    ∀ (location : String) (term : Option String) (rs : List Response) (T : Int),
      (∀ p ∈ searchTrace (yelp_search_url location term) rs, wellBehaved T p) →
      ¬ loopGuard (searchFinal (yelp_search_url location term) rs) →
      T ≤ 1000 →
      (searchFinal (yelp_search_url location term) rs).runningCount = T ∧
        (searchFinal (yelp_search_url location term) rs).totalCount = T ∧
        ¬ (searchFinal (yelp_search_url location term) rs).runningCount <
            (searchFinal (yelp_search_url location term) rs).totalCount := by
  intro location term rs T hwb hng hT
  have hinit : loopGuard initState := by decide
  have haux := searchLoop_complete_aux (yelp_search_url location term) T rs initState
    (by decide) (by decide) (by decide) hwb hng
  rcases haux.2 with h | h
  · rw [show searchFinal (yelp_search_url location term) rs =
        (searchLoop (yelp_search_url location term) initState rs).1 from rfl, h] at hng
    exact absurd hinit hng
  · have hrun := haux.1
    have hminT : min T MAX_RESULTS = T := by
      simp only [MAX_RESULTS]
      omega
    rw [show (searchLoop (yelp_search_url location term) initState rs).1 =
        searchFinal (yelp_search_url location term) rs from rfl] at hrun h
    rw [h, hminT] at hrun
    exact ⟨hrun, h, by omega⟩

theorem c2_amended_complete_below_cap_witness :
    (searchFinal (yelp_search_url "X" none) twoPageResponses).runningCount = 80 ∧
      (searchFinal (yelp_search_url "X" none) twoPageResponses).totalCount = 80 ∧
      ¬ (searchFinal (yelp_search_url "X" none) twoPageResponses).runningCount <
          (searchFinal (yelp_search_url "X" none) twoPageResponses).totalCount :=
  c2_amended_complete_below_cap "X" none twoPageResponses 80 (by decide) (by decide)
    (by decide)

/-- C9 counterexample: a run with one successful one-record page yields a
table whose underscore-prefixed metadata columns are five, not "exactly the
four" the claim lists — the per-page `_page_url` metadata column (spec §3
counts the source page URL among the derived metadata) is also carried. -/
theorem c9_fifth_metadata_column_counterexample :
    (yelp_location_search "X" none "t0" oneRowResponses).map DataFrame.cols =
      .ok ["id", "categories", "coordinates", "transactions", "location",
           "_page_url", "_loaded_at", "_location", "_term", "_is_complete"] ∧
    ¬ "_page_url" ∈ ["_loaded_at", "_location", "_term", "_is_complete"] :=
  ⟨rfl, by decide⟩

theorem serializeJsonColumns_ok (df df' : DataFrame)
    (h : serializeJsonColumns df = .ok df') :
    df'.cols = df.cols ∧ df'.rows = df.rows.map serializeRow := by
  unfold serializeJsonColumns at h
  split_ifs at h with hc
  cases h
  exact ⟨rfl, rfl⟩

theorem serializeRow_eq (row : Row) :
    serializeRow row =
      setCell (setCell (setCell (setCell row
        "categories" (.str (dumpsCell (getCell row "categories"))))
        "coordinates" (.str (dumpsCell (getCell row "coordinates"))))
        "transactions" (.str (dumpsCell (getCell row "transactions"))))
        "location" (.str (dumpsCell (getCell row "location"))) := rfl

theorem getCell_serializeRow_json (row : Row) :
    ∀ c ∈ JSON_COLUMNS,
      getCell (serializeRow row) c = some (.str (dumpsCell (getCell row c))) := by
  intro c hc
  rw [serializeRow_eq]
  simp only [JSON_COLUMNS, List.mem_cons, List.not_mem_nil, or_false] at hc
  rcases hc with rfl | rfl | rfl | rfl
  · rw [getCell_setCell_ne _ "location" "categories" _ (by decide),
        getCell_setCell_ne _ "transactions" "categories" _ (by decide),
        getCell_setCell_ne _ "coordinates" "categories" _ (by decide),
        getCell_setCell_self]
  · rw [getCell_setCell_ne _ "location" "coordinates" _ (by decide),
        getCell_setCell_ne _ "transactions" "coordinates" _ (by decide),
        getCell_setCell_self]
  · rw [getCell_setCell_ne _ "location" "transactions" _ (by decide),
        getCell_setCell_self]
  · rw [getCell_setCell_self]

theorem getCell_serializeRow_notjson (row : Row) (c : String)
    (hc : ¬ c ∈ JSON_COLUMNS) :
    getCell (serializeRow row) c = getCell row c := by
  rw [serializeRow_eq]
  simp only [JSON_COLUMNS, List.mem_cons, List.not_mem_nil, or_false, not_or] at hc
  obtain ⟨h1, h2, h3, h4⟩ := hc
  rw [getCell_setCell_ne _ "location" c _ h4,
      getCell_setCell_ne _ "transactions" c _ h3,
      getCell_setCell_ne _ "coordinates" c _ h2,
      getCell_setCell_ne _ "categories" c _ h1]

theorem searchLoop_pageDfs_page_url (url : String) :
    ∀ (rs : List Response) (s : LoopState),
      (∀ d ∈ s.pageDfs, ∀ row ∈ d.rows,
          ∃ u, getCell row "_page_url" = some (.str u)) →
      ∀ d ∈ (searchLoop url s rs).1.pageDfs, ∀ row ∈ d.rows,
        ∃ u, getCell row "_page_url" = some (.str u) := by
  intro rs
  induction rs with
  | nil =>
    intro s hs
    simpa [searchLoop] using hs
  | cons r rest ih =>
    intro s hs
    by_cases hg : loopGuard s
    · have hcons : (searchLoop url s (r :: rest)).1 =
          (searchLoop url (searchStep url s r) rest).1 := by
        simp [searchLoop, hg]
      rw [hcons]
      apply ih
      intro d hd row hrow
      by_cases h200 : r.status = 200
      · by_cases hlen : r.businesses.length = 0
        · have hpd : (searchStep url s r).pageDfs = s.pageDfs := by
            simp only [searchStep]
            rw [if_pos h200, if_pos hlen]
          rw [hpd] at hd
          exact hs d hd row hrow
        · have hpd : (searchStep url s r).pageDfs =
              s.pageDfs ++ [setColumn (fromRecords r.businesses) "_page_url"
                (.str (url ++ "&limit=" ++ toString s.limit ++ "&offset=" ++
                  toString s.runningCount))] := by
            simp only [searchStep]
            rw [if_pos h200, if_neg hlen]
          rw [hpd] at hd
          rcases List.mem_append.mp hd with hd' | hd'
          · exact hs d hd' row hrow
          · rcases List.mem_singleton.mp hd' with rfl
            simp only [setColumn] at hrow
            rcases List.mem_map.mp hrow with ⟨r2, _, rfl⟩
            exact ⟨_, getCell_setCell_self r2 "_page_url" _⟩
      · have hpd : (searchStep url s r).pageDfs = s.pageDfs := by
          simp only [searchStep]
          rw [if_neg h200]
        rw [hpd] at hd
        exact hs d hd row hrow
    · have hstop : (searchLoop url s (r :: rest)).1 = s := by
        simp [searchLoop, hg]
      rw [hstop]
      exact hs

theorem getCell_meta4_loaded (r : Row) (a b c2 d2 : Json) :
    getCell (setCell (setCell (setCell (setCell r "_loaded_at" a) "_location" b)
      "_term" c2) "_is_complete" d2) "_loaded_at" = some a := by
  rw [getCell_setCell_ne _ _ _ _ (show ("_loaded_at" : String) ≠ "_is_complete" by decide),
      getCell_setCell_ne _ _ _ _ (show ("_loaded_at" : String) ≠ "_term" by decide),
      getCell_setCell_ne _ _ _ _ (show ("_loaded_at" : String) ≠ "_location" by decide),
      getCell_setCell_self]

theorem getCell_meta4_location (r : Row) (a b c2 d2 : Json) :
    getCell (setCell (setCell (setCell (setCell r "_loaded_at" a) "_location" b)
      "_term" c2) "_is_complete" d2) "_location" = some b := by
  rw [getCell_setCell_ne _ _ _ _ (show ("_location" : String) ≠ "_is_complete" by decide),
      getCell_setCell_ne _ _ _ _ (show ("_location" : String) ≠ "_term" by decide),
      getCell_setCell_self]

theorem getCell_meta4_term (r : Row) (a b c2 d2 : Json) :
    getCell (setCell (setCell (setCell (setCell r "_loaded_at" a) "_location" b)
      "_term" c2) "_is_complete" d2) "_term" = some c2 := by
  rw [getCell_setCell_ne _ _ _ _ (show ("_term" : String) ≠ "_is_complete" by decide),
      getCell_setCell_self]

theorem getCell_meta4_complete (r : Row) (a b c2 d2 : Json) :
    getCell (setCell (setCell (setCell (setCell r "_loaded_at" a) "_location" b)
      "_term" c2) "_is_complete" d2) "_is_complete" = some d2 :=
  getCell_setCell_self _ _ _

theorem getCell_meta4_other (r : Row) (a b c2 d2 : Json) (x : String)
    (h1 : x ≠ "_loaded_at") (h2 : x ≠ "_location") (h3 : x ≠ "_term")
    (h4 : x ≠ "_is_complete") :
    getCell (setCell (setCell (setCell (setCell r "_loaded_at" a) "_location" b)
      "_term" c2) "_is_complete" d2) x = getCell r x := by
  rw [getCell_setCell_ne _ _ _ _ h4, getCell_setCell_ne _ _ _ _ h3,
      getCell_setCell_ne _ _ _ _ h2, getCell_setCell_ne _ _ _ _ h1]

/-- C9 (amended): every row of a table returned by the paginated fetcher
carries the four appended metadata columns — `_loaded_at` equal to the load
timestamp, `_location` equal to the queried location, `_term` equal to the
term or the empty string when no term was given, `_is_complete` equal to
the stringified completeness flag (`"True"` or `"False"`) — as well as the
per-page `_page_url` metadata column holding a string; and the four JSON
columns hold the `json.dumps` serialization of the corresponding cells of
the originating accumulated business row, never native nested values. -/
theorem c9_amended_metadata_and_serialized :
    ∀ (location : String) (term : Option String) (loadedAt : String)
      (rs : List Response) (df : DataFrame),
      yelp_location_search location term loadedAt rs = .ok df →
      ∀ row ∈ df.rows,
        getCell row "_loaded_at" = some (.str loadedAt) ∧
        getCell row "_location" = some (.str location) ∧
        getCell row "_term" = some (.str (pyTermOrEmpty term)) ∧
        (getCell row "_is_complete" = some (.str "True") ∨
          getCell row "_is_complete" = some (.str "False")) ∧
        (∃ u, getCell row "_page_url" = some (.str u)) ∧
        ∃ row₀,
          (∃ d ∈ (searchLoop (yelp_search_url location term) initState rs).1.pageDfs,
              row₀ ∈ d.rows) ∧
          ∀ c ∈ JSON_COLUMNS,
            getCell row c = some (.str (dumpsCell (getCell row₀ c))) := by
  intro location term loadedAt rs df h row hrow
  unfold yelp_location_search at h
  dsimp only at h
  split at h
  · exact Except.noConfusion h
  · rename_i df0 hser
    have hdf := Except.ok.inj h
    subst hdf
    obtain ⟨hcols0, hrows0⟩ := serializeJsonColumns_ok _ _ hser
    simp only [setColumn, List.map_map] at hrow
    rcases List.mem_map.mp hrow with ⟨r0, hr0, rfl⟩
    rw [hrows0] at hr0
    rcases List.mem_map.mp hr0 with ⟨r1, hr1, rfl⟩
    have hr1mem : ∃ d ∈ (searchLoop (yelp_search_url location term) initState rs).1.pageDfs,
        r1 ∈ d.rows := by
      unfold assembledResults at hr1
      split_ifs at hr1 with hne
      · exact absurd hr1 (List.not_mem_nil r1)
      · simp only [concatDfs] at hr1
        rcases List.mem_flatten.mp hr1 with ⟨rowsd, hrowsd, hmem⟩
        rcases List.mem_map.mp hrowsd with ⟨d, hd, rfl⟩
        exact ⟨d, hd, hmem⟩
    obtain ⟨d, hd, hr1d⟩ := hr1mem
    obtain ⟨u, hu⟩ := searchLoop_pageDfs_page_url (yelp_search_url location term) rs
      initState (by intro d' hd'; simp [initState] at hd') d hd r1 hr1d
    dsimp only [Function.comp]
    refine ⟨getCell_meta4_loaded _ _ _ _ _, getCell_meta4_location _ _ _ _ _,
      getCell_meta4_term _ _ _ _ _, ?_, ?_, ⟨r1, ⟨d, hd, hr1d⟩, ?_⟩⟩
    · rw [getCell_meta4_complete]
      cases isCompleteFlag (yelp_search_url location term) rs
      · right
        rfl
      · left
        rfl
    · refine ⟨u, ?_⟩
      rw [getCell_meta4_other _ _ _ _ _ _ (by decide) (by decide) (by decide) (by decide),
          getCell_serializeRow_notjson _ _ (by decide), hu]
    · intro c hc
      have hj := getCell_serializeRow_json r1 c hc
      simp only [JSON_COLUMNS, List.mem_cons, List.not_mem_nil, or_false] at hc
      rcases hc with rfl | rfl | rfl | rfl <;>
        rw [getCell_meta4_other _ _ _ _ _ _ (by decide) (by decide) (by decide) (by decide)] <;>
        exact hj

set_option maxRecDepth 100000 in
theorem c9_amended_metadata_and_serialized_witness :
    getCell c9WitnessRow "_location" = some (.str "X") :=
  (c9_amended_metadata_and_serialized "X" none "t0" oneRowResponses _ rfl
    c9WitnessRow (by exact List.mem_singleton.mpr rfl)).2.1
